import Mathlib

/-!
Shallow embedding of the `overdrive` volume subsystem
(`src/core/src/volume/os.rs` and `src/core/src/volume/watcher.rs`),
with theorems settling the specification claims about it.

OS interaction (the `sysinfo` disk snapshot, `Path::exists`, the
`findmnt`/`umount` process invocations, `/sys/block/.../rotational`
reads) is modelled as an explicit environment passed to the embedded
functions.  A Rust panic (`Option::unwrap` on `None`) is modelled as
the `none` case of an outer `Option` layer; fallible Rust `Result`
values are modelled with `Except`.
-/

set_option autoImplicit false

namespace Overdrive

/-- The error taxonomy.  `Platform` is constructed throughout
`src/core/src/volume/os.rs` and `watcher.rs`.  `Unsupported` is
Modelled from the spec: the error enum itself (`volume/error.rs`) is not
under `src/`; §7 of the spec gives the closed taxonomy
`Platform(message)` and `Unsupported`. -/
inductive VolumeError where
  | Platform (msg : String)
  | Unsupported
  deriving DecidableEq, Repr

/-- Disk type, `SSD | HDD | Unknown` (spec §3; matched by the
constructor names used in `os.rs`). -/
inductive DiskType where
  | SSD
  | HDD
  | Unknown
  deriving DecidableEq, Repr

/-- Mount classification, `System | External` (spec §3; constructed in
`linux::get_volumes` from the removable flag). -/
inductive MountType where
  | System
  | External
  deriving DecidableEq, Repr

/-- Filesystem kind.  Modelled from the spec: `FileSystem` and its
`from_string` parser live in `volume/types.rs`, which is not under
`src/`; the spec (§3) says it is parsed from an OS-reported string with
an `Unrecognized` fallback.  The claims never inspect it, so it is
embedded as the carried source string. -/
structure FileSystem where
  raw : String
  deriving DecidableEq, Repr

/-- Modelled from the spec: `FileSystem::from_string` (in the missing
`volume/types.rs`) parses an OS-reported string. -/
def FileSystem.from_string (s : String) : FileSystem := ⟨s⟩

/-- An OS path (`std::path::Path` / `PathBuf`).  `utf8` models
`Path::to_str()`: it is `some s` exactly when the path is valid UTF-8.
Path identity (used by `HashSet<PathBuf>` and `Path::exists`) is the
structure's own equality. -/
structure OsPath where
  utf8 : Option String
  deriving DecidableEq, Repr

/-- A discovered storage volume (spec §3).  Modelled from the spec:
`Volume` itself is declared in the missing `volume/types.rs`; the field
list and order follow the `Volume::new` call in `linux::get_volumes`
(name, mount type, primary mount point, mount-point list, disk type,
filesystem, total capacity, available capacity, read-only flag). -/
structure Volume where
  name : String
  mount_type : MountType
  mount_point : OsPath
  mount_points : List OsPath
  disk_type : DiskType
  file_system : FileSystem
  total_bytes_capacity : Nat
  total_bytes_available : Nat
  read_only : Bool
  deriving DecidableEq, Repr

/-- Modelled from the spec: `Volume::new` (missing `volume/types.rs`)
constructs a `Volume` from the nine attributes in this order, as
invoked by `linux::get_volumes`. -/
def Volume.new (name : String) (mount_type : MountType) (mount_point : OsPath)
    (mount_points : List OsPath) (disk_type : DiskType) (file_system : FileSystem)
    (total_bytes_capacity total_bytes_available : Nat) (read_only : Bool) : Volume :=
  ⟨name, mount_type, mount_point, mount_points, disk_type, file_system,
    total_bytes_capacity, total_bytes_available, read_only⟩

/-- The `VolumeEvent` sum type over added/removed (spec §3; matched by
the constructors used in `watcher.rs`). -/
inductive VolumeEvent where
  | VolumeAdded (v : Volume)
  | VolumeRemoved (v : Volume)
  deriving DecidableEq, Repr

/-! ## String helpers

Computable stand-ins for the Rust string methods the source uses
(`str::to_lowercase`, `str::trim`), restricted to ASCII: every string
they are applied to in the source (filesystem kind names, the contents
of `/sys/block/../queue/rotational`) is ASCII. -/

/-- ASCII lower-casing of one character (Rust `to_lowercase` on the
ASCII range). -/
def asciiLowerChar (c : Char) : Char :=
  if 65 ≤ c.toNat ∧ c.toNat ≤ 90 then Char.ofNat (c.toNat + 32) else c

/-- ASCII lower-casing of a string. -/
def asciiLower (s : String) : String :=
  String.mk (s.toList.map asciiLowerChar)

/-- ASCII whitespace test (Rust `char::is_whitespace` on the ASCII
range). -/
def isAsciiWhitespace (c : Char) : Bool :=
  c = ' ' || c = '\t' || c = '\n' || c = '\r'

/-- Rust `str::trim`: strip leading and trailing whitespace. -/
def asciiTrim (s : String) : String :=
  String.mk (((s.toList.dropWhile isAsciiWhitespace).reverse.dropWhile
    isAsciiWhitespace).reverse)

/-! ## `os.rs` — `mod common` -/

namespace common

/-- Embeds `common::parse_size`: keep the ASCII digits of the string
and parse them as a number, defaulting to `0`. -/
def parse_size (size_str : String) : Nat :=
  (String.mk (size_str.toList.filter fun c => c.isDigit)).toNat?.getD 0

/-- Embeds `common::is_virtual_filesystem`: case-insensitive membership
of the kind string in the fixed pseudo-filesystem denylist. -/
def is_virtual_filesystem (fs : String) : Bool :=
  asciiLower fs = "devfs" || asciiLower fs = "sysfs" || asciiLower fs = "proc" ||
    asciiLower fs = "tmpfs" || asciiLower fs = "ramfs" || asciiLower fs = "devtmpfs"

end common

/-! ## `os.rs` — `mod linux` -/

namespace linux

/-- One entry of the `sysinfo` disk snapshot taken inside
`spawn_blocking` in `linux::get_volumes`.  The Rust code decodes the
filesystem byte string twice — `std::str::from_utf8(..).unwrap_or("")`
for the virtual-filesystem filter and `String::from_utf8_lossy` for
`FileSystem::from_string` — so both decodings are carried as
OS-provided inputs (`file_system_utf8 = none` models invalid UTF-8). -/
structure Disk where
  name : String
  is_removable : Bool
  mount_point : OsPath
  file_system_utf8 : Option String
  file_system_lossy : String
  total_space : Nat
  available_space : Nat

/-- The observable result of running an external command
(`std::process::Output`): exit-status success flag, stdout and stderr
(both already decoded the way the Rust code decodes them, via
`from_utf8_lossy`). -/
structure CmdOutput where
  status_success : Bool
  stdout : String
  stderr : String

/-- The OS environment one `linux::get_volumes` call runs against:
the disk snapshot, the `Path::exists` oracle, the `findmnt` process
invocation (keyed by the mount-point string; `Except.error e` models an
I/O failure to run it, carrying the error's display text), the
`std::fs::read_to_string` oracle, and `join_error = some e` modelling a
`spawn_blocking` join failure. -/
structure LinuxEnv where
  disks : List Disk
  path_exists : OsPath → Bool
  findmnt : String → Except String CmdOutput
  read_to_string : String → Except String String
  join_error : Option String := none

/-- Rust `str::trim_start_matches` on lists: repeatedly strip the
prefix `pat` while it matches. -/
def trimStartList (pat : List Char) : List Char → List Char
  | [] => []
  | c :: rest =>
    if h : pat.isPrefixOf (c :: rest) ∧ pat ≠ [] then
      have : (c :: rest).length - pat.length < (c :: rest).length := by
        have hp : pat <+: (c :: rest) := List.isPrefixOf_iff_prefix.mp h.1
        have hle : pat.length ≤ (c :: rest).length := hp.length_le
        have hpos : 0 < pat.length := List.length_pos.mpr h.2
        omega
      trimStartList pat ((c :: rest).drop pat.length)
    else c :: rest
termination_by l => l.length
decreasing_by simpa using this

/-- Rust `str::trim_start_matches` on strings. -/
def trimStartMatches (s pat : String) : String :=
  String.mk (trimStartList pat.toList s.toList)

/-- Rust `str::contains` for a literal pattern: substring test. -/
def strContains (s pat : String) : Bool :=
  decide (pat.toList <:+: s.toList)

/-- Embeds `linux::detect_disk_type`: read
`/sys/block/NAME/queue/rotational` (with a leading `/dev/` trimmed from
the device name); `0` is SSD, `1` is HDD, anything else — including a
read failure — is `Unknown`.  Always `Except.ok`. -/
def detect_disk_type (env : LinuxEnv) (device_name : String) : Except VolumeError DiskType :=
  let path := "/sys/block/" ++ trimStartMatches device_name "/dev/" ++ "/queue/rotational"
  match env.read_to_string path with
  | .ok contents =>
    if asciiTrim contents = "0" then .ok .SSD
    else if asciiTrim contents = "1" then .ok .HDD
    else .ok .Unknown
  | .error _ => .ok .Unknown

/-- Embeds `linux::is_volume_readonly`: convert the mount point with
`to_str().unwrap()` (a non-UTF-8 path panics — the outer `none`), run
`findmnt --noheadings --output OPTIONS`; a failure to run it is an
`Except.error` wrapped into `VolumeError::Platform`, otherwise the
volume is read-only iff the OPTIONS output contains `ro,`, `,ro` or
`ro `. -/
def is_volume_readonly (env : LinuxEnv) (mount_point : OsPath) :
    Option (Except VolumeError Bool) :=
  match mount_point.utf8 with
  | none => none
  | some s =>
    match env.findmnt s with
    | .error e => some (.error (.Platform ("Failed to run findmnt: " ++ e)))
    | .ok output =>
      some (.ok (strContains output.stdout "ro," || strContains output.stdout ",ro" ||
        strContains output.stdout "ro "))

/-- The `Volume::new` call in the body of the `linux::get_volumes`
loop, for one disk entry that passed the mount-point existence check. -/
def mkVolume (d : Disk) (disk_type : DiskType) (read_only : Bool) : Volume :=
  Volume.new d.name (if d.is_removable then .External else .System)
    d.mount_point [d.mount_point] disk_type
    (FileSystem.from_string d.file_system_lossy)
    d.total_space d.available_space read_only

/-- The `for` loop of `linux::get_volumes` over the filtered disk
snapshot: skip entries whose mount point no longer exists, then run the
read-only check (`?` — its error aborts the whole call, its panic
aborts the process) and the disk-type check (`?`), and push the built
volume. -/
def get_volumes_go (env : LinuxEnv) : List Disk → Option (Except VolumeError (List Volume))
  | [] => some (.ok [])
  | d :: rest =>
    if env.path_exists d.mount_point = false then get_volumes_go env rest
    else
      match is_volume_readonly env d.mount_point with
      | none => none
      | some (.error e) => some (.error e)
      | some (.ok read_only) =>
        match detect_disk_type env d.name with
        | .error e => some (.error e)
        | .ok disk_type =>
          match get_volumes_go env rest with
          | none => none
          | some (.error e) => some (.error e)
          | some (.ok vs) => some (.ok (mkVolume d disk_type read_only :: vs))

/-- Embeds `linux::get_volumes`: a `spawn_blocking` join failure becomes a
`Platform` error; otherwise the snapshot is filtered by
`is_virtual_filesystem` over the `from_utf8(..).unwrap_or("")` decoding
of the filesystem kind, and the loop builds the volume list. -/
def get_volumes (env : LinuxEnv) : Option (Except VolumeError (List Volume)) :=
  match env.join_error with
  | some e => some (.error (.Platform ("Task join error: " ++ e)))
  | none =>
    get_volumes_go env
      (env.disks.filter fun d => !common.is_virtual_filesystem (d.file_system_utf8.getD ""))

/-- The commands `linux::unmount_volume` spawns, in order: the graceful
`umount PATH` (the path handed over as an `OsStr`, no UTF-8
conversion), and the lazy `umount -l PATH` (the path converted with
`to_str().unwrap()`). -/
inductive UnmountCmd where
  | graceful (p : OsPath)
  | lazy (s : String)
  deriving DecidableEq, Repr

/-- The OS environment one `linux::unmount_volume` call runs against:
the two process invocations (`Except.error e` models an I/O failure to
spawn, carrying the error's display text). -/
structure UnmountEnv where
  umount : OsPath → Except String CmdOutput
  umount_lazy : String → Except String CmdOutput

/-- Embeds `linux::unmount_volume`, instrumented with the list of commands it
spawned.  Graceful `umount` first; on `Ok` with success status the
result is `Ok(())`.  On anything else (spawn error or failure status)
the lazy variant runs once: its path conversion `to_str().unwrap()` can
panic (outer `none`), a spawn failure maps to
`Platform("Lazy unmount failed: ..")`, a failure status to
`Platform("Failed to unmount volume: " ++ stderr)`, and success to
`Ok(())`. -/
def unmount_volume (env : UnmountEnv) (path : OsPath) :
    Option (Except VolumeError Unit) × List UnmountCmd :=
  match env.umount path with
  | .ok output =>
    if output.status_success then (some (.ok ()), [.graceful path])
    else
      match path.utf8 with
      | none => (none, [.graceful path])
      | some s =>
        match env.umount_lazy s with
        | .error e =>
          (some (.error (.Platform ("Lazy unmount failed: " ++ e))), [.graceful path, .lazy s])
        | .ok lazy_result =>
          if lazy_result.status_success then (some (.ok ()), [.graceful path, .lazy s])
          else
            (some (.error (.Platform ("Failed to unmount volume: " ++ lazy_result.stderr))),
              [.graceful path, .lazy s])
  | .error _ =>
    match path.utf8 with
    | none => (none, [.graceful path])
    | some s =>
      match env.umount_lazy s with
      | .error e =>
        (some (.error (.Platform ("Lazy unmount failed: " ++ e))), [.graceful path, .lazy s])
      | .ok lazy_result =>
        if lazy_result.status_success then (some (.ok ()), [.graceful path, .lazy s])
        else
          (some (.error (.Platform ("Failed to unmount volume: " ++ lazy_result.stderr))),
            [.graceful path, .lazy s])

/-- Whether the graceful `umount` attempt fails (spawn error or failure
exit status) in environment `env` — the condition under which the
source falls through to the lazy attempt. -/
def graceful_failed (env : UnmountEnv) (path : OsPath) : Bool :=
  match env.umount path with
  | .ok output => !output.status_success
  | .error _ => true

end linux

/-! ## `os.rs` — `mod mobile` -/

namespace mobile

/-- Embeds `mobile::get_volumes`: mobile platforms have no mountable
volumes. -/
def get_volumes : Except VolumeError (List Volume) := .ok []

/-- Embeds `mobile::unmount_volume`: a fixed `Platform` error, for
every path. -/
def unmount_volume (_path : OsPath) : Except VolumeError Unit :=
  .error (.Platform "Volumes not supported on mobile platforms")

end mobile

/-! ## `watcher.rs` — `VolumeWatcher` -/

namespace watcher

/-- The debounce window constant `DEBOUNCE_MS` (`watcher.rs` line 15). -/
def DEBOUNCE_MS : Nat := 100

/-- One iteration of the debounce gate in the detection loop, at a
trigger received at instant `t` (milliseconds; `t ≥ last_check` since
`Instant` is monotone, so `elapsed = t - last_check`).  If the elapsed
time since the last processed check is below `DEBOUNCE_MS` the trigger
is dropped (`continue`: `last_check` unchanged); otherwise it is
processed and `last_check` is reset to now. -/
def debounce_step (last_check t : Nat) : Bool × Nat :=
  if t - last_check < DEBOUNCE_MS then (false, last_check)
  else (true, t)

/-- The debounce gate over a sequence of trigger instants: for each
trigger, whether it is processed (an enumeration pass runs). -/
def run_triggers (last_check : Nat) : List Nat → List Bool
  | [] => []
  | t :: ts =>
    let r := debounce_step last_check t
    r.1 :: run_triggers r.2 ts

/-- The mutable state of a `VolumeWatcher`: the `ignored_paths` set
(a `HashSet<PathBuf>`, embedded as a duplicate-free list) and the
`running` flag. -/
structure WatcherState where
  ignored_paths : List OsPath
  running : Bool

/-- Embeds `VolumeWatcher::new`: empty ignore set, running. -/
def WatcherState.new : WatcherState := ⟨[], true⟩

/-- Embeds `VolumeWatcher::ignore_path`: insert into the set. -/
def ignore_path (st : WatcherState) (path : OsPath) : WatcherState :=
  { st with ignored_paths := st.ignored_paths.insert path }

/-- Embeds `VolumeWatcher::unignore_path`: remove from the set. -/
def unignore_path (st : WatcherState) (path : OsPath) : WatcherState :=
  { st with ignored_paths := st.ignored_paths.erase path }

/-- Embeds `VolumeWatcher::stop`: clear the running flag. -/
def stop (st : WatcherState) : WatcherState :=
  { st with running := false }

/-- The body of one processed trigger of the detection loop
(`watcher.rs` lines 61–92), parametric in the fingerprint function
`fp` (`VolumeFingerprint::new(&device_id, _)` with the device id fixed;
`volume/types.rs` is not under `src/`, so the fingerprint is kept
abstract).  `enum_result` is what `os::get_volumes()` returned and `P`
is the actor's current volume list (`actor.get_volumes()`; the actor
keys its state by fingerprint, so `volume_exists` is a fingerprint
membership test over `P`).  On an enumeration error the loop logs and
substitutes the empty list.  It then sends `VolumeAdded` for every
discovered volume whose fingerprint is absent from the actor state, and
afterwards `VolumeRemoved` for every actor volume whose fingerprint no
discovered volume carries. -/
def detection_cycle {K : Type} [DecidableEq K] (fp : Volume → K)
    (enum_result : Except VolumeError (List Volume)) (P : List Volume) :
    List VolumeEvent :=
  let discovered_volumes := match enum_result with
    | .ok volumes => volumes
    | .error _ => []
  let added := (discovered_volumes.filter fun v =>
    !(P.any fun a => decide (fp a = fp v))).map VolumeEvent.VolumeAdded
  let removed := (P.filter fun v =>
    !(discovered_volumes.any fun d => decide (fp d = fp v))).map VolumeEvent.VolumeRemoved
  added ++ removed

/-- The detection-loop body as the spawned task sees it, with the whole
watcher state in scope.  Faithful to the source: the loop body
(`watcher.rs` lines 52–93) captures `running` and the channel but never
reads `ignored_paths`, so the cycle's output does not depend on the
ignore set. -/
def detection_cycle_watcher {K : Type} [DecidableEq K] (fp : Volume → K)
    (_st : WatcherState) (enum_result : Except VolumeError (List Volume))
    (P : List Volume) : List VolumeEvent :=
  detection_cycle fp enum_result P

end watcher

/-! ## Volume Actor (state application) -/

namespace actor

/-- Modelled from the spec: the `VolumeManagerActor` (not under `src/`)
owns a fingerprint-keyed map of volumes; `apply` on `VolumeAdded`
inserts with overwrite (idempotent), on `VolumeRemoved` deletes by
fingerprint (no-op if absent) — spec §4.3.  The state is embedded as
the list of stored volumes, each keyed by its own fingerprint. -/
def apply_event {K : Type} [DecidableEq K] (fp : Volume → K)
    (state : List Volume) : VolumeEvent → List Volume
  | .VolumeAdded v => v :: state.filter fun a => fp a ≠ fp v
  | .VolumeRemoved v => state.filter fun a => fp a ≠ fp v

/-- Applying a whole event list to the actor state, in order. -/
def apply_events {K : Type} [DecidableEq K] (fp : Volume → K)
    (state : List Volume) (events : List VolumeEvent) : List Volume :=
  events.foldl (apply_event fp) state

end actor

/-! ## Concrete sample data (used by concrete evaluations) -/

/-- A UTF-8 mount-point path. -/
def samplePath : OsPath := ⟨some "/mnt/data"⟩

/-- A UTF-8 path whose mount point has vanished by enumeration time. -/
def ghostPath : OsPath := ⟨some "/mnt/ghost"⟩

/-- The mount point of a pseudo filesystem. -/
def virtPath : OsPath := ⟨some "/sys"⟩

/-- A non-UTF-8 path (`to_str()` is `None`). -/
def badPath : OsPath := ⟨none⟩

/-- A regular removable ext4 disk entry. -/
def sampleDisk : linux.Disk := ⟨"/dev/sda1", true, samplePath, some "ext4", "ext4", 1000, 400⟩

/-- A tmpfs entry (on the pseudo-filesystem denylist). -/
def virtualDisk : linux.Disk := ⟨"tmpfs", false, virtPath, some "tmpfs", "tmpfs", 10, 5⟩

/-- A disk entry whose reported mount point no longer exists. -/
def ghostDisk : linux.Disk := ⟨"/dev/sdb1", true, ghostPath, some "ext4", "ext4", 50, 20⟩

/-- A healthy OS environment: three reported disks of which only
`sampleDisk` survives the denylist and the existence check; `findmnt`
reports read-write options; the rotational flag reads `0`. -/
def envGood : linux.LinuxEnv where
  disks := [sampleDisk, virtualDisk, ghostDisk]
  path_exists := fun p => decide (p = samplePath)
  findmnt := fun _ => .ok ⟨true, "rw,relatime", ""⟩
  read_to_string := fun _ => .ok "0"
  join_error := none

/-- An environment where the `findmnt` invocation itself fails. -/
def envFindmntFails : linux.LinuxEnv where
  disks := [sampleDisk]
  path_exists := fun _ => true
  findmnt := fun _ => .error "boom"
  read_to_string := fun _ => .ok "0"
  join_error := none

/-- An unmount environment where the graceful attempt exits with a
failure status and the lazy attempt succeeds. -/
def envBusy : linux.UnmountEnv where
  umount := fun _ => .ok ⟨false, "", "umount: target is busy"⟩
  umount_lazy := fun _ => .ok ⟨true, "", ""⟩

/-- A concrete stand-in for the abstract fingerprint function in
concrete evaluations (any function of the volume works; the watcher
theorems are parametric in it). -/
def fpName : Volume → String := fun v => v.name

/-- The volume `linux.get_volumes envGood` discovers. -/
def sampleVolume : Volume := linux.mkVolume sampleDisk DiskType.SSD false

/-! ## Theorems -/

/-- Helper: once the graceful `umount` attempt has failed,
`unmount_volume` is decided entirely by the lazy attempt (for a UTF-8
path): a spawn failure, a failing exit status, or success map to the
lazy error, the stderr-carrying error, or `Ok(())` respectively, and in
every case exactly the two commands ran. -/
theorem unmount_volume_of_graceful_failed (env : linux.UnmountEnv) (p : OsPath) (s : String)
    (hs : p.utf8 = some s) (hfail : linux.graceful_failed env p = true) :
    linux.unmount_volume env p =
      (match env.umount_lazy s with
        | .error e =>
          (some (.error (.Platform ("Lazy unmount failed: " ++ e))), [.graceful p, .lazy s])
        | .ok lr =>
          if lr.status_success then (some (.ok ()), [.graceful p, .lazy s])
          else
            (some (.error (.Platform ("Failed to unmount volume: " ++ lr.stderr))),
              [.graceful p, .lazy s])) := by
  unfold linux.graceful_failed at hfail
  unfold linux.unmount_volume
  cases hu : env.umount p with
  | error err =>
    dsimp only
    rw [hs]
  | ok out =>
    rw [hu] at hfail
    simp only [Bool.not_eq_true'] at hfail
    dsimp only
    rw [hfail, hs]
    simp

/-- C1: the detection loop swallows an enumeration failure into the
empty list (same events as an empty successful enumeration; no crash,
no propagation) — but diffing that empty list against the actor state
emits `VolumeRemoved` for a volume still in the actor's state, contrary
to the loop's own comment that the empty list is returned "to avoid
sending events". -/
theorem C1_failure_cycle_swallows_but_emits_removed :
    (∀ (err : VolumeError) (P : List Volume),
      watcher.detection_cycle fpName (Except.error err) P =
        watcher.detection_cycle fpName (Except.ok []) P) ∧
    watcher.detection_cycle fpName
        (Except.error (VolumeError.Platform "Failed to get volumes"))
        [sampleVolume] =
      [VolumeEvent.VolumeRemoved sampleVolume] :=
  ⟨fun _ _ => rfl, rfl⟩

/-- C2: the ignore set is maintained (`ignore_path` inserts the path)
but the detection-loop body never consults it: its output is
independent of the watcher's ignore state, and a cycle whose
enumeration misses the volume mounted at the ignored path `samplePath`
still emits `VolumeRemoved` for that volume. -/
theorem C2_ignored_path_not_consulted_by_cycle :
    (watcher.ignore_path watcher.WatcherState.new samplePath).ignored_paths = [samplePath] ∧
    sampleVolume.mount_point = samplePath ∧
    watcher.detection_cycle_watcher fpName
        (watcher.ignore_path watcher.WatcherState.new samplePath)
        (Except.ok []) [sampleVolume] =
      [VolumeEvent.VolumeRemoved sampleVolume] ∧
    (∀ (st₁ st₂ : watcher.WatcherState) (er : Except VolumeError (List Volume))
        (P : List Volume),
      watcher.detection_cycle_watcher fpName st₁ er P =
        watcher.detection_cycle_watcher fpName st₂ er P) :=
  ⟨rfl, rfl, rfl, fun _ _ _ _ => rfl⟩

/-- C4: `unmount_volume` runs the graceful attempt first and, whenever
it fails (spawn error or failure status), runs the lazy attempt exactly
once: if either attempt succeeds the result is `Ok(())` (the failed
graceful attempt's output discarded), and if both fail the surfaced
error carries the lazy (last) attempt's diagnostic text. -/
theorem C4_unmount_graceful_then_lazy (env : linux.UnmountEnv) (p : OsPath) (s : String)
    (hs : p.utf8 = some s) :
    (∀ out, env.umount p = .ok out → out.status_success = true →
      linux.unmount_volume env p = (some (.ok ()), [.graceful p])) ∧
    (linux.graceful_failed env p = true →
      (∀ out, env.umount_lazy s = .ok out → out.status_success = true →
        linux.unmount_volume env p = (some (.ok ()), [.graceful p, .lazy s])) ∧
      (∀ out, env.umount_lazy s = .ok out → out.status_success = false →
        linux.unmount_volume env p =
          (some (.error (.Platform ("Failed to unmount volume: " ++ out.stderr))),
            [.graceful p, .lazy s])) ∧
      (∀ e, env.umount_lazy s = .error e →
        linux.unmount_volume env p =
          (some (.error (.Platform ("Lazy unmount failed: " ++ e))),
            [.graceful p, .lazy s]))) := by
  constructor
  · intro out hok hsucc
    unfold linux.unmount_volume
    rw [hok]
    dsimp only
    rw [hsucc]
    simp
  · intro hfail
    refine ⟨fun out hl hsucc => ?_, fun out hl hsucc => ?_, fun e hl => ?_⟩ <;>
      rw [unmount_volume_of_graceful_failed env p s hs hfail, hl] <;> simp [hsucc]

/-- C4 witness: on a busy volume (graceful attempt exits with failure
status) the lazy attempt runs, succeeds, and the overall result is
`Ok(())`. -/
theorem C4_unmount_witness :
    linux.unmount_volume envBusy samplePath =
      (some (.ok ()), [.graceful samplePath, .lazy "/mnt/data"]) :=
  ((C4_unmount_graceful_then_lazy envBusy samplePath "/mnt/data" rfl).2 rfl).1
    ⟨true, "", ""⟩ rfl rfl

/-- C6: a trigger arriving within `DEBOUNCE_MS` of the previously
processed trigger is dropped and does not move the debounce clock; in
particular two triggers 10 ms apart yield exactly one enumeration pass
and two triggers 500 ms apart yield two. -/
theorem C6_debounce_coalesces (lc t : Nat) (h : lc + watcher.DEBOUNCE_MS ≤ t) :
    watcher.run_triggers lc [t, t + 10] = [true, false] ∧
    watcher.run_triggers lc [t, t + 500] = [true, true] ∧
    ∀ d, d < watcher.DEBOUNCE_MS → watcher.run_triggers lc [t, t + d] = [true, false] := by
  have h100 : watcher.DEBOUNCE_MS = 100 := rfl
  rw [h100] at h
  have h1 : ¬ t - lc < 100 := by omega
  have h2 : t + 10 - t < 100 := by omega
  have h3 : ¬ t + 500 - t < 100 := by omega
  refine ⟨?_, ?_, fun d hd => ?_⟩
  · simp [watcher.run_triggers, watcher.debounce_step, watcher.DEBOUNCE_MS, h1, h2]
  · simp [watcher.run_triggers, watcher.debounce_step, watcher.DEBOUNCE_MS, h1, h3]
  · rw [h100] at hd
    have h4 : t + d - t < 100 := by omega
    simp [watcher.run_triggers, watcher.debounce_step, watcher.DEBOUNCE_MS, h1, h4, hd]

/-- C6 witness: from a clock start of 0, a trigger at 100 ms is
processed, a follow-up 10 ms later is dropped, and a follow-up 500 ms
later is processed. -/
theorem C6_debounce_witness :
    watcher.run_triggers 0 [100, 110] = [true, false] ∧
    watcher.run_triggers 0 [100, 600] = [true, true] :=
  ⟨(C6_debounce_coalesces 0 100 (by decide)).1, (C6_debounce_coalesces 0 100 (by decide)).2.1⟩

/-- C8: as the claim states it, mobile `unmount` would return the
taxonomy's fixed `Unsupported` error; the code instead returns a
`Platform` error with a fixed message, which is not `Unsupported`. -/
theorem C8_mobile_unsupported_counterexample :
    mobile.unmount_volume samplePath =
      Except.error (VolumeError.Platform "Volumes not supported on mobile platforms") ∧
    mobile.unmount_volume samplePath ≠ Except.error VolumeError.Unsupported := by
  refine ⟨rfl, fun h => ?_⟩
  simp [mobile.unmount_volume] at h

/-- C8 (amended): on mobile platforms `enumerate` always returns `Ok`
with the empty list and `unmount` always returns the fixed
`Platform("Volumes not supported on mobile platforms")` error, for
every input path; the interface is never partially implemented. -/
theorem C8_mobile_contract :
    mobile.get_volumes = Except.ok [] ∧
    ∀ p : OsPath, mobile.unmount_volume p =
      Except.error (VolumeError.Platform "Volumes not supported on mobile platforms") :=
  ⟨rfl, fun _ => rfl⟩

/-- Helper: every volume returned by the enumeration loop originates
in a disk entry of the traversed list whose mount point passed the
existence check, and is exactly the `Volume::new` value built from that
entry. -/
theorem get_volumes_go_sound (env : linux.LinuxEnv) :
    ∀ (ds : List linux.Disk) (vs : List Volume),
      linux.get_volumes_go env ds = some (.ok vs) →
      ∀ v ∈ vs, ∃ d ∈ ds, env.path_exists d.mount_point = true ∧
        ∃ dt ro, v = linux.mkVolume d dt ro := by
  intro ds
  induction ds with
  | nil =>
    intro vs h v hv
    simp only [linux.get_volumes_go, Option.some.injEq, Except.ok.injEq] at h
    subst h
    simp at hv
  | cons d rest ih =>
    intro vs h v hv
    simp only [linux.get_volumes_go] at h
    split at h
    · rcases ih vs h v hv with ⟨d', hd', hrest⟩
      exact ⟨d', List.mem_cons_of_mem _ hd', hrest⟩
    · rename_i hpe
      have hpe' : env.path_exists d.mount_point = true := by
        cases hb : env.path_exists d.mount_point
        · exact absurd hb hpe
        · rfl
      split at h
      · exact absurd h (by simp)
      · exact absurd h (by simp)
      · rename_i ro hro
        split at h
        · exact absurd h (by simp)
        · rename_i dt hdt
          split at h
          · exact absurd h (by simp)
          · exact absurd h (by simp)
          · rename_i vs' hvs'
            simp only [Option.some.injEq, Except.ok.injEq] at h
            subst h
            rcases List.mem_cons.mp hv with hveq | hvmem
            · exact ⟨d, List.mem_cons_self d rest, hpe', dt, ro, hveq⟩
            · rcases ih vs' hvs' v hvmem with ⟨d', hd', hrest⟩
              exact ⟨d', List.mem_cons_of_mem _ hd', hrest⟩

/-- Helper: every volume returned by `linux::get_volumes` originates in
a disk of the snapshot that passed the virtual-filesystem denylist and
whose mount point existed at enumeration time. -/
theorem get_volumes_sound (env : linux.LinuxEnv) (vs : List Volume)
    (h : linux.get_volumes env = some (.ok vs)) :
    ∀ v ∈ vs, ∃ d ∈ env.disks,
      common.is_virtual_filesystem (d.file_system_utf8.getD "") = false ∧
      env.path_exists d.mount_point = true ∧
      ∃ dt ro, v = linux.mkVolume d dt ro := by
  unfold linux.get_volumes at h
  split at h
  · exact absurd h (by simp)
  · intro v hv
    rcases get_volumes_go_sound env _ vs h v hv with ⟨d, hd, hpe, hmk⟩
    have hmem := List.mem_filter.mp hd
    refine ⟨d, hmem.1, ?_, hpe, hmk⟩
    simpa using hmem.2

/-- C7: every enumeration pass excludes disks whose filesystem kind is
on the pseudo/virtual denylist and skips entries whose reported mount
point no longer exists: every returned volume traces back to a disk
that is non-virtual and whose mount point existed, and carries that
disk's name and mount point. -/
theorem C7_denylist_and_existence (env : linux.LinuxEnv) (vs : List Volume)
    (h : linux.get_volumes env = some (.ok vs)) :
    ∀ v ∈ vs, ∃ d ∈ env.disks,
      common.is_virtual_filesystem (d.file_system_utf8.getD "") = false ∧
      env.path_exists d.mount_point = true ∧
      v.mount_point = d.mount_point ∧ v.name = d.name := by
  intro v hv
  rcases get_volumes_sound env vs h v hv with ⟨d, hd, hvirt, hpe, dt, ro, hveq⟩
  subst hveq
  exact ⟨d, hd, hvirt, hpe, rfl, rfl⟩

/-- C7 witness: in `envGood` the tmpfs disk is excluded, the vanished
mount point is skipped, and the surviving volume traces back to the
ext4 disk. -/
theorem C7_witness :
    linux.get_volumes envGood = some (.ok [sampleVolume]) ∧
    (∃ d ∈ envGood.disks,
      common.is_virtual_filesystem (d.file_system_utf8.getD "") = false ∧
      envGood.path_exists d.mount_point = true ∧
      sampleVolume.mount_point = d.mount_point ∧ sampleVolume.name = d.name) :=
  ⟨rfl, C7_denylist_and_existence envGood [sampleVolume] rfl sampleVolume
    (List.mem_singleton.mpr rfl)⟩

/-- C10: every volume built by the Linux enumeration carries as its
full mount-point list exactly the one-element list of its primary mount
point. -/
theorem C10_single_mount_point (env : linux.LinuxEnv) (vs : List Volume)
    (h : linux.get_volumes env = some (.ok vs)) :
    ∀ v ∈ vs, v.mount_points = [v.mount_point] := by
  intro v hv
  rcases get_volumes_sound env vs h v hv with ⟨d, _, _, _, dt, ro, hveq⟩
  subst hveq
  rfl

/-- C10 witness: the volume enumerated from `envGood` is mounted in
exactly one place, its primary mount point. -/
theorem C10_witness :
    sampleVolume.mount_points = [sampleVolume.mount_point] :=
  C10_single_mount_point envGood [sampleVolume] rfl sampleVolume
    (List.mem_singleton.mpr rfl)

/-- C3: contrary to the claim, a read-only detection failure does not
degrade to `false`: with one ext4 disk whose `findmnt` invocation fails
(`envFindmntFails`), `get_volumes` surfaces the failure as a
`VolumeError` and returns no volume list, even though disk-type
detection (the other secondary attribute) succeeds. -/
theorem C3_readonly_failure_surfaced_counterexample :
    linux.get_volumes envFindmntFails =
      some (.error (.Platform "Failed to run findmnt: boom")) ∧
    (linux.detect_disk_type envFindmntFails "/dev/sda1").isOk = true :=
  ⟨rfl, rfl⟩

/-- C3 (amended): disk-type detection failures never fail the enclosing
enumeration — `detect_disk_type` always returns `Ok` — but a read-only
detection failure (a failure to run `findmnt`) is propagated by the `?`
operator and surfaces from `get_volumes` as a `Platform` error,
aborting the enumeration. -/
theorem C3_secondary_attribute_policy (env : linux.LinuxEnv) (d : linux.Disk) (s e : String)
    (hj : env.join_error = none) (hd : env.disks = [d])
    (hv : common.is_virtual_filesystem (d.file_system_utf8.getD "") = false)
    (hx : env.path_exists d.mount_point = true)
    (hs : d.mount_point.utf8 = some s)
    (hf : env.findmnt s = .error e) :
    (∀ name, (linux.detect_disk_type env name).isOk = true) ∧
    linux.get_volumes env =
      some (.error (.Platform ("Failed to run findmnt: " ++ e))) := by
  constructor
  · intro name
    unfold linux.detect_disk_type
    dsimp only
    split
    · split_ifs <;> rfl
    · rfl
  · unfold linux.get_volumes
    rw [hj]
    dsimp only
    rw [hd]
    simp only [List.filter_cons, List.filter_nil, hv, Bool.not_false, if_true]
    simp only [linux.get_volumes_go, hx, linux.is_volume_readonly, hs, hf]
    simp

/-- C3 witness for the amended statement, at the concrete failing
environment. -/
theorem C3_secondary_attribute_witness :
    (linux.detect_disk_type envFindmntFails "/dev/sdz9").isOk = true ∧
    linux.get_volumes envFindmntFails =
      some (.error (.Platform ("Failed to run findmnt: " ++ "boom"))) :=
  ⟨(C3_secondary_attribute_policy envFindmntFails sampleDisk "/mnt/data" "boom"
      rfl rfl rfl rfl rfl rfl).1 "/dev/sdz9",
   (C3_secondary_attribute_policy envFindmntFails sampleDisk "/mnt/data" "boom"
      rfl rfl rfl rfl rfl rfl).2⟩

/-- Helper: the read-only check panics exactly when the mount-point
path is not valid UTF-8. -/
theorem is_volume_readonly_none_iff (env : linux.LinuxEnv) (p : OsPath) :
    linux.is_volume_readonly env p = none ↔ p.utf8 = none := by
  unfold linux.is_volume_readonly
  cases p.utf8 with
  | none => simp
  | some s =>
    rcases hf : env.findmnt s with e | o <;> simp [hf]

/-- Helper: the enumeration loop cannot panic when every traversed
disk's mount point is valid UTF-8. -/
theorem get_volumes_go_no_panic (env : linux.LinuxEnv) :
    ∀ ds : List linux.Disk, (∀ d ∈ ds, d.mount_point.utf8.isSome = true) →
      linux.get_volumes_go env ds ≠ none := by
  intro ds
  induction ds with
  | nil =>
    intro _ h
    simp [linux.get_volumes_go] at h
  | cons d rest ih =>
    intro hall h
    have hrest : ∀ d' ∈ rest, d'.mount_point.utf8.isSome = true :=
      fun d' hd' => hall d' (List.mem_cons_of_mem _ hd')
    simp only [linux.get_volumes_go] at h
    split at h
    · exact ih hrest h
    · split at h
      · rename_i hro
        have := (is_volume_readonly_none_iff env d.mount_point).mp hro
        have hd := hall d (List.mem_cons_self d rest)
        rw [this] at hd
        simp at hd
      · exact absurd h (by simp)
      · split at h
        · exact absurd h (by simp)
        · split at h
          · rename_i hrec
            exact ih hrest hrec
          · exact absurd h (by simp)
          · exact absurd h (by simp)

/-- C9: the `to_str().unwrap()` conversions cannot panic on UTF-8
paths — the read-only check returns a value, the unmount call returns a
result, and a snapshot whose mount points are all UTF-8 enumerates
without panic — while a non-UTF-8 mount point makes the read-only check
panic, and makes `unmount` panic once the graceful attempt has failed,
instead of returning a `VolumeError`. -/
theorem C9_utf8_unwrap_panic (env : linux.LinuxEnv) (uenv : linux.UnmountEnv) (p : OsPath) :
    (p.utf8.isSome = true →
      linux.is_volume_readonly env p ≠ none ∧
      (linux.unmount_volume uenv p).1 ≠ none) ∧
    (p.utf8 = none →
      linux.is_volume_readonly env p = none ∧
      (linux.graceful_failed uenv p = true → (linux.unmount_volume uenv p).1 = none)) ∧
    ((∀ d ∈ env.disks, d.mount_point.utf8.isSome = true) →
      linux.get_volumes env ≠ none) := by
  refine ⟨fun hsome => ⟨?_, ?_⟩, fun hnone => ⟨?_, fun hfail => ?_⟩, fun hall => ?_⟩
  · rw [Ne, is_volume_readonly_none_iff]
    intro hc
    rw [hc] at hsome
    simp at hsome
  · rcases Option.isSome_iff_exists.mp hsome with ⟨s, hs⟩
    unfold linux.unmount_volume
    cases uenv.umount p with
    | ok out =>
      dsimp only
      cases out.status_success
      · rw [hs]
        dsimp only
        cases uenv.umount_lazy s with
        | ok lr =>
          dsimp only
          cases lr.status_success <;> simp
        | error e => simp
      · simp
    | error err =>
      dsimp only
      rw [hs]
      dsimp only
      cases uenv.umount_lazy s with
      | ok lr =>
        dsimp only
        cases lr.status_success <;> simp
      | error e => simp
  · exact (is_volume_readonly_none_iff env p).mpr hnone
  · unfold linux.graceful_failed at hfail
    unfold linux.unmount_volume
    cases hu : uenv.umount p with
    | ok out =>
      rw [hu] at hfail
      simp only [Bool.not_eq_true'] at hfail
      dsimp only
      rw [hfail, hnone]
      simp
    | error err =>
      dsimp only
      rw [hnone]
  · unfold linux.get_volumes
    split
    · simp
    · exact get_volumes_go_no_panic env _
        (fun d hd => hall d (List.mem_filter.mp hd).1)

/-- C9 witness: concrete UTF-8 paths convert and run without panic;
the concrete non-UTF-8 path panics in the read-only check and in the
lazy-unmount fallback. -/
theorem C9_witness :
    linux.is_volume_readonly envGood samplePath ≠ none ∧
    linux.is_volume_readonly envGood badPath = none ∧
    (linux.unmount_volume envBusy badPath).1 = none ∧
    linux.get_volumes envGood ≠ none :=
  ⟨((C9_utf8_unwrap_panic envGood envBusy samplePath).1 rfl).1,
   ((C9_utf8_unwrap_panic envGood envBusy badPath).2.1 rfl).1,
   ((C9_utf8_unwrap_panic envGood envBusy badPath).2.1 rfl).2 rfl,
   (C9_utf8_unwrap_panic envGood envBusy samplePath).2.2 (by decide)⟩

/-- Helper: the fingerprint set after applying an `Added` event gains
the added volume's fingerprint and keeps all others (insert with
overwrite). -/
theorem map_fp_apply_added {K : Type} [DecidableEq K] (fp : Volume → K)
    (st : List Volume) (v : Volume) (k : K) :
    k ∈ ((actor.apply_event fp st (VolumeEvent.VolumeAdded v)).map fp) ↔
      k = fp v ∨ k ∈ st.map fp := by
  simp only [actor.apply_event, List.map_cons, List.mem_cons, List.mem_map, List.mem_filter]
  constructor
  · rintro (h | ⟨a, ⟨ha, hne⟩, hk⟩)
    · exact Or.inl h
    · exact Or.inr ⟨a, ha, hk⟩
  · rintro (h | ⟨a, ha, hk⟩)
    · exact Or.inl h
    · by_cases hkv : k = fp v
      · exact Or.inl hkv
      · refine Or.inr ⟨a, ⟨ha, ?_⟩, hk⟩
        simp only [ne_eq, decide_not, Bool.not_eq_true', decide_eq_false_iff_not]
        intro hh
        rw [hh] at hk
        exact hkv hk.symm

/-- Helper: the fingerprint set after applying a `Removed` event is the
old set minus the removed volume's fingerprint (delete by key). -/
theorem map_fp_apply_removed {K : Type} [DecidableEq K] (fp : Volume → K)
    (st : List Volume) (v : Volume) (k : K) :
    k ∈ ((actor.apply_event fp st (VolumeEvent.VolumeRemoved v)).map fp) ↔
      ¬ k = fp v ∧ k ∈ st.map fp := by
  simp only [actor.apply_event, List.mem_map, List.mem_filter]
  constructor
  · rintro ⟨a, ⟨ha, hne⟩, hk⟩
    simp only [ne_eq, decide_not, Bool.not_eq_true', decide_eq_false_iff_not] at hne
    exact ⟨fun hkv => hne (hk.trans hkv), a, ha, hk⟩
  · rintro ⟨hkv, a, ha, hk⟩
    refine ⟨a, ⟨ha, ?_⟩, hk⟩
    simp only [ne_eq, decide_not, Bool.not_eq_true', decide_eq_false_iff_not]
    intro hh
    rw [hh] at hk
    exact hkv hk.symm

/-- Helper: applying a run of `Added` events adds exactly the added
volumes' fingerprints to the state's fingerprint set. -/
theorem map_fp_apply_adds {K : Type} [DecidableEq K] (fp : Volume → K) (k : K) :
    ∀ (vs : List Volume) (st : List Volume),
      k ∈ (actor.apply_events fp st (vs.map VolumeEvent.VolumeAdded)).map fp ↔
        (∃ v ∈ vs, fp v = k) ∨ k ∈ st.map fp := by
  intro vs
  induction vs with
  | nil =>
    intro st
    simp [actor.apply_events]
  | cons v rest ih =>
    intro st
    simp only [List.map_cons, actor.apply_events, List.foldl_cons]
    rw [show List.foldl (actor.apply_event fp)
        (actor.apply_event fp st (VolumeEvent.VolumeAdded v))
        (rest.map VolumeEvent.VolumeAdded) =
      actor.apply_events fp (actor.apply_event fp st (VolumeEvent.VolumeAdded v))
        (rest.map VolumeEvent.VolumeAdded) from rfl]
    rw [ih, map_fp_apply_added]
    constructor
    · rintro (⟨u, hu, huk⟩ | h | h)
      · exact Or.inl ⟨u, List.mem_cons_of_mem _ hu, huk⟩
      · exact Or.inl ⟨v, List.mem_cons_self v rest, h.symm⟩
      · exact Or.inr h
    · rintro (⟨u, hu, huk⟩ | h)
      · rcases List.mem_cons.mp hu with rfl | hu'
        · exact Or.inr (Or.inl huk.symm)
        · exact Or.inl ⟨u, hu', huk⟩
      · exact Or.inr (Or.inr h)

/-- Helper: applying a run of `Removed` events deletes exactly the
removed volumes' fingerprints from the state's fingerprint set. -/
theorem map_fp_apply_removes {K : Type} [DecidableEq K] (fp : Volume → K) (k : K) :
    ∀ (vs : List Volume) (st : List Volume),
      k ∈ (actor.apply_events fp st (vs.map VolumeEvent.VolumeRemoved)).map fp ↔
        (∀ v ∈ vs, ¬ k = fp v) ∧ k ∈ st.map fp := by
  intro vs
  induction vs with
  | nil =>
    intro st
    simp [actor.apply_events]
  | cons v rest ih =>
    intro st
    simp only [List.map_cons, actor.apply_events, List.foldl_cons]
    rw [show List.foldl (actor.apply_event fp)
        (actor.apply_event fp st (VolumeEvent.VolumeRemoved v))
        (rest.map VolumeEvent.VolumeRemoved) =
      actor.apply_events fp (actor.apply_event fp st (VolumeEvent.VolumeRemoved v))
        (rest.map VolumeEvent.VolumeRemoved) from rfl]
    rw [ih, map_fp_apply_removed]
    constructor
    · rintro ⟨hall, hkv, hst⟩
      refine ⟨fun u hu => ?_, hst⟩
      rcases List.mem_cons.mp hu with rfl | hu'
      · exact hkv
      · exact hall u hu'
    · rintro ⟨hall, hst⟩
      exact ⟨fun u hu => hall u (List.mem_cons_of_mem _ hu),
        hall v (List.mem_cons_self v rest), hst⟩

/-- Helper: applying a concatenation of event lists is sequential
application. -/
theorem apply_events_append {K : Type} [DecidableEq K] (fp : Volume → K)
    (st : List Volume) (xs ys : List VolumeEvent) :
    actor.apply_events fp st (xs ++ ys) =
      actor.apply_events fp (actor.apply_events fp st xs) ys := by
  simp [actor.apply_events, List.foldl_append]

/-- C5: one detection cycle over enumerated set `S` and actor state `P`
emits `VolumeAdded(v)` exactly for the `v ∈ S` whose fingerprint is not
among `P`'s fingerprints, `VolumeRemoved(v)` exactly for the `v ∈ P`
whose fingerprint is not among `S`'s, and applying all emitted events
to the actor state makes its fingerprint set equal the fingerprint set
of `S`. -/
theorem C5_diff_and_convergence {K : Type} [DecidableEq K] (fp : Volume → K)
    (S P : List Volume) :
    (∀ v, VolumeEvent.VolumeAdded v ∈ watcher.detection_cycle fp (.ok S) P ↔
      (v ∈ S ∧ fp v ∉ P.map fp)) ∧
    (∀ v, VolumeEvent.VolumeRemoved v ∈ watcher.detection_cycle fp (.ok S) P ↔
      (v ∈ P ∧ fp v ∉ S.map fp)) ∧
    (∀ k, k ∈ (actor.apply_events fp P (watcher.detection_cycle fp (.ok S) P)).map fp ↔
      k ∈ S.map fp) := by
  have hcycle : watcher.detection_cycle fp (.ok S) P =
      ((S.filter fun v => !(P.any fun a => decide (fp a = fp v))).map
        VolumeEvent.VolumeAdded) ++
      ((P.filter fun v => !(S.any fun d => decide (fp d = fp v))).map
        VolumeEvent.VolumeRemoved) := rfl
  refine ⟨fun v => ?_, fun v => ?_, fun k => ?_⟩
  · rw [hcycle]
    simp [List.mem_filter, List.any_eq_true]
  · rw [hcycle]
    simp [List.mem_filter, List.any_eq_true]
  · rw [hcycle, apply_events_append, map_fp_apply_removes, map_fp_apply_adds]
    simp only [List.mem_filter, List.any_eq_true, List.any_eq_false, decide_eq_true_eq,
      Bool.not_eq_true', decide_eq_false_iff_not, List.mem_map, not_exists, not_and]
    constructor
    · rintro ⟨hrem, hor⟩
      rcases hor with ⟨u, ⟨huS, hunP⟩, huk⟩ | ⟨a, haP, hak⟩
      · exact ⟨u, huS, huk⟩
      · by_contra hnex
        simp only [not_exists, not_and] at hnex
        exact hrem a ⟨haP, fun w hwS hwfa => hnex w hwS (hwfa.trans hak)⟩ hak.symm
    · rintro ⟨a, haS, hak⟩
      constructor
      · rintro u ⟨huP, hnone⟩ hku
        exact hnone a haS (hak.trans hku)
      · by_cases hkP : ∃ u, u ∈ P ∧ fp u = k
        · exact Or.inr hkP
        · simp only [not_exists, not_and] at hkP
          exact Or.inl ⟨a, ⟨haS, fun w hwP hwfa => hkP w hwP (hwfa.trans hak)⟩, hak⟩

end Overdrive
